import Mathlib

/-!
Verification development for the misinformation-detector backend.

The Python sources are embedded shallowly:

* Python `str` values are modelled as `List Char` (`Str`); Python string
  operations (`lower`, `in`, `strip`, `split`, slicing) are modelled by the
  corresponding executable list functions.
* Python `float` scores are modelled as `ℚ`; every score in the harm
  classifier is produced by finite sums, products and `min`, so rational
  arithmetic models the source exactly up to floating-point rounding.
* The regular-expression engine (`re.findall` / `re.search`) is an external
  library; it is threaded through as an explicit oracle (`RegexOracle`),
  with the pattern strings kept verbatim from the source.
* Fallible external calls (LLM calls, regex engine viewed as possibly
  raising) are modelled with `Option`; `try/except` blocks become explicit
  case splits on the `Option` results.
-/

namespace MisinfoApp

/-- Python strings are modelled as lists of characters. -/
abbrev Str := List Char

/-- Coercion from a Lean string literal to the `Str` model. -/
def str (s : String) : Str := s.data

/-- Python `s.lower()`. -/
def pyLower (l : Str) : Str := l.map Char.toLower

/-- Python substring containment `pat in l` (`True` for the empty pattern). -/
def containsSub (pat : Str) : Str → Bool
  | [] => pat.isEmpty
  | c :: tl => pat.isPrefixOf (c :: tl) || containsSub pat tl

/-- Python `sum(1 for keyword in kws if keyword.lower() in text.lower())`. -/
def keywordCount (kws : List Str) (text : Str) : ℕ :=
  (kws.filter (fun kw => containsSub (pyLower kw) (pyLower text))).length

/-- Oracle standing for the Python `re` module: `findall pattern text` is the
list of matched fragments, `search pattern text` tells whether the pattern
occurs.  The harm classifier only ever branches on these two results. -/
structure RegexOracle where
  findall : Str → Str → List Str
  search : Str → Str → Bool

/-! ## backend/services/harm_classifier.py -/

/-- Result dictionary returned by each `_detect_*` helper: keys `detected`,
`severity`, `matches`, and (for health and conspiracy) `keyword_count`.
Detectors that do not set `keyword_count` store `0`, which is never read. -/
structure IndicatorResult where
  detected : Bool
  severity : ℚ
  «matches» : List Str
  keyword_count : ℕ

/-- The shared loop body of every detector:
`for pattern in patterns: m = findall(pattern, text); if m: matches.extend(m); severity += inc`,
starting from an accumulated severity `sev` and an empty match list. -/
def collectMatches (findall : Str → Str → List Str) (text : Str) (inc : ℚ) :
    List Str → ℚ → List Str × ℚ
  | [], sev => ([], sev)
  | p :: ps, sev =>
    let pm := findall p text
    if pm = [] then collectMatches findall text inc ps sev
    else
      let r := collectMatches findall text inc ps (sev + inc)
      (pm ++ r.1, r.2)

/-- Keyword lists from `_load_harm_keywords` (only the `health` list is read
by a detector; `violence` and `financial` are loaded but unused). -/
def harm_keywords_health : List Str :=
  [str "vaccine", str "covid", str "coronavirus", str "medicine", str "treatment",
   str "cure", str "doctor", str "hospital", str "symptoms", str "disease",
   str "virus", str "bacteria", str "immunity", str "antibiotics",
   str "prescription", str "dosage", str "side effects"]

def harm_keywords_violence : List Str :=
  [str "weapon", str "gun", str "bomb", str "attack", str "violence", str "harm",
   str "hurt", str "kill", str "murder", str "fight", str "war", str "terrorism",
   str "threat"]

def harm_keywords_financial : List Str :=
  [str "investment", str "money", str "profit", str "scam", str "fraud",
   str "bitcoin", str "crypto", str "trading", str "stocks", str "loan",
   str "debt", str "bank", str "credit", str "finance", str "pyramid",
   str "ponzi"]

def dangerous_health_claims : List Str :=
  [str "\\b(cure|treat|prevent)\\s+(?:cancer|diabetes|covid|coronavirus|aids)\\b",
   str "\\b(?:vaccine|vaccination)\\s+(?:dangerous|harmful|toxic|poison)\\b",
   str "\\b(?:doctors|medical)\\s+(?:hiding|conspiracy|cover-up)\\b",
   str "\\bmiracle\\s+(?:cure|treatment|remedy)\\b",
   str "\\b(?:natural|herbal)\\s+(?:cure|alternative)\\s+to\\s+(?:medicine|drugs)\\b"]

/-- Model of `_detect_health_claims`. -/
def _detect_health_claims (o : RegexOracle) (text : Str) : IndicatorResult :=
  let c := collectMatches o.findall text (3/10) dangerous_health_claims 0
  let health_score := keywordCount harm_keywords_health text
  let severity := c.2 + min ((4:ℚ)/10) ((health_score : ℚ) * (1/10))
  { detected := (if 0 < c.1.length then true else false),
    severity := min 1 severity,
    «matches» := c.1.take 5,
    keyword_count := health_score }

def violence_patterns : List Str :=
  [str "\\b(?:kill|murder|assassinate|eliminate)\\s+(?:them|those|the)\\b",
   str "\\b(?:fight|attack|destroy|harm)\\s+(?:back|them|those)\\b",
   str "\\btake\\s+(?:action|revenge|justice)\\s+into\\s+(?:your|our)\\s+hands\\b",
   str "\\b(?:uprising|revolution|revolt|riot)\\s+(?:now|today|time)\\b",
   str "\\b(?:they|government|media)\\s+(?:deserve|need)\\s+to\\s+(?:pay|suffer)\\b"]

/-- Model of `_detect_violence_content`. -/
def _detect_violence_content (o : RegexOracle) (text : Str) : IndicatorResult :=
  let c := collectMatches o.findall text (4/10) violence_patterns 0
  { detected := (if 0 < c.1.length then true else false),
    severity := min 1 c.2,
    «matches» := c.1.take 3,
    keyword_count := 0 }

def financial_scam_patterns : List Str :=
  [str "\\b(?:guaranteed|instant|easy)\\s+(?:money|profit|returns)\\b",
   str "\\b(?:investment|trading)\\s+(?:secret|system|strategy)\\b",
   str "\\bmake\\s+\\$?\\d+(?:k|,\\d+)?\\s+(?:per|a)\\s+(?:day|week|month)\\b",
   str "\\b(?:crypto|bitcoin|forex)\\s+(?:scam|ponzi|pyramid)\\b",
   str "\\bget\\s+rich\\s+quick\\b",
   str "\\bno\\s+(?:risk|investment|experience)\\s+required\\b"]

/-- Model of `_detect_financial_scams`. -/
def _detect_financial_scams (o : RegexOracle) (text : Str) : IndicatorResult :=
  let c := collectMatches o.findall text (25/100) financial_scam_patterns 0
  { detected := (if 0 < c.1.length then true else false),
    severity := min 1 c.2,
    «matches» := c.1.take 3,
    keyword_count := 0 }

def conspiracy_keywords : List Str :=
  [str "deep state", str "illuminati", str "new world order", str "agenda 21",
   str "false flag", str "cover-up", str "mainstream media lies", str "wake up",
   str "they don\x27t want you to know", str "hidden truth", str "secret society"]

def conspiracy_patterns : List Str :=
  [str "\\b(?:government|media|big pharma)\\s+(?:conspiracy|cover-up|lies)\\b",
   str "\\bthey\\s+(?:don\x27t\\s+want|are\\s+hiding|control)\\b",
   str "\\b(?:wake\\s+up|open\\s+your\\s+eyes|sheep|sheeple)\\b",
   str "\\b(?:mainstream|fake)\\s+media\\b"]

/-- Model of `_detect_conspiracy_elements`.  Note that `detected` is computed
from the accumulated severity (`severity > 0`), unlike every other detector,
which tests the match list instead. -/
def _detect_conspiracy_elements (o : RegexOracle) (text : Str) : IndicatorResult :=
  let kc := keywordCount conspiracy_keywords text
  let base := min ((3:ℚ)/10) ((kc : ℚ) * (1/10))
  let c := collectMatches o.findall text (15/100) conspiracy_patterns base
  { detected := (if 0 < c.2 then true else false),
    severity := min 1 c.2,
    «matches» := c.1.take 3,
    keyword_count := kc }

def discriminatory_patterns : List Str :=
  [str "\\b(?:all|most|these)\\s+(?:immigrants|foreigners|minorities)\\s+are\\b",
   str "\\b(?:race|religion|gender)\\s+(?:superior|inferior)\\b",
   str "\\bthose\\s+people\\s+(?:are|always|never)\\b"]

/-- Model of `_detect_discrimination`. -/
def _detect_discrimination (o : RegexOracle) (text : Str) : IndicatorResult :=
  let c := collectMatches o.findall text (3/10) discriminatory_patterns 0
  { detected := (if 0 < c.1.length then true else false),
    severity := min 1 c.2,
    «matches» := c.1.take 2,
    keyword_count := 0 }

def urgency_patterns : List Str :=
  [str "\\b(?:urgent|emergency|immediate|act\\s+now|time\\s+running\\s+out)\\b",
   str "\\b(?:limited\\s+time|expires\\s+soon|act\\s+fast|don\x27t\\s+wait)\\b",
   str "\\b(?:before\\s+it\x27s\\s+too\\s+late|last\\s+chance|final\\s+warning)\\b"]

/-- Model of `_detect_urgency_tactics`. -/
def _detect_urgency_tactics (o : RegexOracle) (text : Str) : IndicatorResult :=
  let c := collectMatches o.findall text (1/10) urgency_patterns 0
  { detected := (if 0 < c.1.length then true else false),
    severity := min 1 c.2,
    «matches» := c.1.take 3,
    keyword_count := 0 }

def authority_patterns : List Str :=
  [str "\\b(?:doctor|scientist|expert|professor)\\s+(?:says|claims|warns)\\b",
   str "\\b(?:studies\\s+show|research\\s+proves|scientists\\s+agree)\\b",
   str "\\b(?:top\\s+secret|classified|insider)\\s+(?:information|knowledge)\\b"]

/-- Model of `_detect_authority_claims`. -/
def _detect_authority_claims (o : RegexOracle) (text : Str) : IndicatorResult :=
  let c := collectMatches o.findall text (15/100) authority_patterns 0
  { detected := (if 0 < c.1.length then true else false),
    severity := min 1 c.2,
    «matches» := c.1.take 3,
    keyword_count := 0 }

def emotional_patterns : List Str :=
  [str "\\b(?:terrifying|shocking|outrageous|disgusting)\\b",
   str "\\b(?:your\\s+children|our\\s+children)\\s+(?:are\\s+in\\s+danger|at\\s+risk)\\b",
   str "\\b(?:they\\s+want\\s+to|trying\\s+to)\\s+(?:control|manipulate|deceive)\\s+you\\b"]

/-- Model of `_detect_emotional_tactics`. -/
def _detect_emotional_tactics (o : RegexOracle) (text : Str) : IndicatorResult :=
  let c := collectMatches o.findall text (1/10) emotional_patterns 0
  { detected := (if 0 < c.1.length then true else false),
    severity := min 1 c.2,
    «matches» := c.1.take 3,
    keyword_count := 0 }

/-- The eight keys of the `_analyze_harm_indicators` dictionary. -/
inductive IndicatorType
  | health_misinformation
  | violence_incitement
  | financial_fraud
  | conspiracy_theories
  | discriminatory_content
  | urgency_manipulation
  | authority_impersonation
  | emotional_manipulation
  deriving DecidableEq

/-- Insertion order of the `_analyze_harm_indicators` dictionary, which is the
iteration order of every downstream loop over it. -/
def indicatorOrder : List IndicatorType :=
  [.health_misinformation, .violence_incitement, .financial_fraud,
   .conspiracy_theories, .discriminatory_content, .urgency_manipulation,
   .authority_impersonation, .emotional_manipulation]

/-- The dictionary key string of each indicator. -/
def indicatorName : IndicatorType → Str
  | .health_misinformation => str "health_misinformation"
  | .violence_incitement => str "violence_incitement"
  | .financial_fraud => str "financial_fraud"
  | .conspiracy_theories => str "conspiracy_theories"
  | .discriminatory_content => str "discriminatory_content"
  | .urgency_manipulation => str "urgency_manipulation"
  | .authority_impersonation => str "authority_impersonation"
  | .emotional_manipulation => str "emotional_manipulation"

/-- Python `indicator_type.replace('_', ' ').title()`. -/
def titleName : IndicatorType → Str
  | .health_misinformation => str "Health Misinformation"
  | .violence_incitement => str "Violence Incitement"
  | .financial_fraud => str "Financial Fraud"
  | .conspiracy_theories => str "Conspiracy Theories"
  | .discriminatory_content => str "Discriminatory Content"
  | .urgency_manipulation => str "Urgency Manipulation"
  | .authority_impersonation => str "Authority Impersonation"
  | .emotional_manipulation => str "Emotional Manipulation"

/-- Model of `_analyze_harm_indicators`. -/
def _analyze_harm_indicators (o : RegexOracle) (text : Str) :
    IndicatorType → IndicatorResult
  | .health_misinformation => _detect_health_claims o text
  | .violence_incitement => _detect_violence_content o text
  | .financial_fraud => _detect_financial_scams o text
  | .conspiracy_theories => _detect_conspiracy_elements o text
  | .discriminatory_content => _detect_discrimination o text
  | .urgency_manipulation => _detect_urgency_tactics o text
  | .authority_impersonation => _detect_authority_claims o text
  | .emotional_manipulation => _detect_emotional_tactics o text

/-- The `self.severity_weights` dictionary with its `.get(key, 0.5)` default. -/
def severity_weights (k : Str) : ℚ :=
  if k = str "health" then 9/10
  else if k = str "violence" then 95/100
  else if k = str "financial" then 7/10
  else if k = str "political" then 6/10
  else if k = str "social" then 1/2
  else if k = str "conspiracy" then 4/10
  else 1/2

/-- Python `indicator_type.split('_')[0]`. -/
def firstComponent (s : Str) : Str := (List.splitOn '_' s).headD []

/-- Model of `_calculate_base_severity`. -/
def _calculate_base_severity (ind : IndicatorType → IndicatorResult) : ℚ :=
  min 1 (indicatorOrder.foldl
    (fun acc t =>
      if (ind t).detected then
        acc + (ind t).severity * severity_weights (firstComponent (indicatorName t))
      else acc)
    0)

/-- Model of `_get_verdict_multiplier` (dictionary lookup with default 0.5). -/
def _get_verdict_multiplier (verdict : Str) : ℚ :=
  if pyLower verdict = str "false" then 1
  else if pyLower verdict = str "misleading" then 8/10
  else if pyLower verdict = str "unverified" then 6/10
  else if pyLower verdict = str "true" then 2/10
  else 1/2

/-- Model of `_determine_harm_level`. -/
def _determine_harm_level (severity_score : ℚ) : Str :=
  if severity_score ≥ 7/10 then str "very_harmful"
  else if severity_score ≥ 3/10 then str "basic"
  else str "harmless"

/-- The regex used for the `Viral spread potential` risk factor. -/
def viral_pattern : Str := str "\\b(?:share|spread|tell\\s+everyone)\\b"

/-- Model of `_identify_risk_factors`. -/
def _identify_risk_factors (o : RegexOracle) (text : Str)
    (ind : IndicatorType → IndicatorResult) : List Str :=
  let rf := indicatorOrder.foldl
    (fun acc t =>
      if (ind t).detected = true ∧ ((3:ℚ)/10) < (ind t).severity then acc ++ [titleName t]
      else acc)
    []
  let rf := if 500 < text.length then rf ++ [str "Long-form content"] else rf
  let rf := if o.search viral_pattern text then rf ++ [str "Viral spread potential"] else rf
  rf.take 5

/-- Model of `_generate_suggested_actions`. -/
def _generate_suggested_actions (harm_level : Str) (risk_factors : List Str)
    (verdict : Str) : List Str :=
  let actions :=
    if harm_level = str "very_harmful" then
      [str "Do not share this content",
       str "Report to platform moderators",
       str "Consider reporting to relevant authorities"]
      ++ (if str "Health Misinformation" ∈ risk_factors then
            [str "Consult healthcare professionals for medical advice"] else [])
      ++ (if str "Violence Incitement" ∈ risk_factors then
            [str "Report to law enforcement if threats are credible"] else [])
    else if harm_level = str "basic" then
      [str "Share with caution and provide context",
       str "Include fact-check explanation when sharing",
       str "Encourage others to verify information"]
    else
      [str "Safe to share with fact-check context",
       str "Use as educational example of misinformation"]
  let actions := actions ++
    (if verdict = str "false" then [str "Share correct information instead"]
     else if verdict = str "misleading" then
       [str "Provide complete context and missing information"]
     else [])
  actions.take 4

/-- The three high-stakes categories of `_requires_escalation`. -/
def escalation_triggers : List Str :=
  [str "Violence Incitement", str "Health Misinformation",
   str "Discriminatory Content"]

/-- Model of `_requires_escalation`. -/
def _requires_escalation (harm_level : Str) (risk_factors : List Str) : Bool :=
  if harm_level = str "very_harmful" then true
  else risk_factors.any (fun f => decide (f ∈ escalation_triggers))

/-- Model of `_calculate_confidence`. -/
def _calculate_confidence (ind : IndicatorType → IndicatorResult)
    (severity_score : ℚ) : ℚ :=
  let detected_count := (indicatorOrder.filter (fun t => (ind t).detected)).length
  if detected_count = 0 then 9/10
  else min ((95:ℚ)/100)
    (6/10 + (detected_count : ℚ) * (1/10) + severity_score * (3/10))

/-- The result dictionary of `classify_harm` (the `reasoning` string, produced
by `_generate_reasoning` from the same inputs, carries no further data used by
any claim and is omitted). -/
structure ClassificationResult where
  level : Str
  confidence : ℚ
  severity_score : ℚ
  risk_factors : List Str
  suggested_actions : List Str
  escalation_required : Bool

/-- Model of the normal (non-raising) path of `classify_harm`. -/
def classify_harm (o : RegexOracle) (claim_text : Str) (verdict : Str) :
    ClassificationResult :=
  let harm_indicators := _analyze_harm_indicators o claim_text
  let base_severity := _calculate_base_severity harm_indicators
  let verdict_multiplier := _get_verdict_multiplier verdict
  let adjusted_severity := base_severity * verdict_multiplier
  let harm_level := _determine_harm_level adjusted_severity
  let risk_factors := _identify_risk_factors o claim_text harm_indicators
  let suggested_actions := _generate_suggested_actions harm_level risk_factors verdict
  let escalation_required := _requires_escalation harm_level risk_factors
  let confidence := _calculate_confidence harm_indicators adjusted_severity
  { level := harm_level,
    confidence := confidence,
    severity_score := adjusted_severity,
    risk_factors := risk_factors,
    suggested_actions := suggested_actions,
    escalation_required := escalation_required }

/-- Model of `_create_fallback_classification`. -/
def _create_fallback_classification : ClassificationResult :=
  { level := str "basic",
    confidence := 3/10,
    severity_score := 1/2,
    risk_factors := [str "Analysis unavailable"],
    suggested_actions := [str "Verify information before sharing",
                          str "Consult multiple reliable sources"],
    escalation_required := false }

/-- Model of the `try/except` of `classify_harm`: the regex engine is viewed
as fallible (`none` = the library call raised).  Any exception reaching
`classify_harm` is caught and answered with the fixed fallback; there is no
finer-grained handler inside the engine.  `oracle_raises` says whether some
call made during a full evaluation fails (every detector runs on the normal
path, so every pattern is consulted). -/
structure FallibleOracle where
  findall : Str → Str → Option (List Str)
  search : Str → Str → Option Bool

/-- Every regex pattern consulted by one run of `classify_harm`. -/
def all_patterns : List Str :=
  dangerous_health_claims ++ violence_patterns ++ financial_scam_patterns ++
  conspiracy_patterns ++ discriminatory_patterns ++ urgency_patterns ++
  authority_patterns ++ emotional_patterns

def oracle_raises (o : FallibleOracle) (text : Str) : Bool :=
  all_patterns.any (fun p => (o.findall p text).isNone) ||
    (o.search viral_pattern text).isNone

def lift_oracle (o : FallibleOracle) : RegexOracle :=
  { findall := fun p t => (o.findall p t).getD [],
    search := fun p t => (o.search p t).getD false }

/-- Model of `classify_harm` with its outer `try/except`: a raising call
anywhere inside yields `_create_fallback_classification`; otherwise the
normal path runs.  The function is total: no exception escapes. -/
def classify_harm_total (o : FallibleOracle) (claim_text : Str) (verdict : Str) :
    ClassificationResult :=
  if oracle_raises o claim_text then _create_fallback_classification
  else classify_harm (lift_oracle o) claim_text verdict

/-! ## backend/services/al_serwce.py (VertexAIService) -/

/-- Python `line.strip()` (strip ASCII whitespace at both ends). -/
def pyStrip (l : Str) : Str :=
  ((l.dropWhile Char.isWhitespace).reverse.dropWhile Char.isWhitespace).reverse

/-- Suffix after the first occurrence of `pat`, or `none` when `pat` does not
occur; this is `l.split(pat, 1)[1]` on the found side. -/
def dropAfterFirst (pat : Str) : Str → Option Str
  | [] => none
  | c :: tl =>
    if pat.isPrefixOf (c :: tl) then some ((c :: tl).drop pat.length)
    else dropAfterFirst pat tl

/-- Numbering removal in `detect_claims`:
`if line[0].isdigit() and '. ' in line: line = line.split('. ', 1)[1]`. -/
def strip_numbering (line : Str) : Str :=
  match line with
  | [] => line
  | c :: _ =>
    if c.isDigit then
      match dropAfterFirst (str ". ") line with
      | some rest => rest
      | none => line
    else line

/-- The response-parsing loop of `detect_claims`: strip the response, split on
newlines, keep stripped non-empty lines not starting with the prompt echo
`Verifiable Claims:`, removing leading numbering. -/
def parse_detect_response (resp : Str) : List Str :=
  (List.splitOn '\n' (pyStrip resp)).foldl
    (fun acc l0 =>
      let line := pyStrip l0
      if line ≠ [] ∧ (str "Verifiable Claims:").isPrefixOf line = false then
        acc ++ [strip_numbering line]
      else acc)
    []

/-- Model of `VertexAIService.detect_claims`.  The model call is abstracted as
`response`: `some r` is a successful call answering the raw text `r`, `none`
is any raised exception, which the `except` branch turns into the single
claim `[text]`. -/
def detect_claims (response : Option Str) (text : Str) : List Str :=
  match response with
  | some r => parse_detect_response r
  | none => [text]

/-- Verdict and confidence recorded by `VertexAIService.verify_claim`. -/
structure VerifyOutcome where
  verdict : Str
  confidence : ℚ

/-- The closed verdict set of the response validation. -/
def verdict_enum : List Str :=
  [str "true", str "false", str "misleading", str "unverified"]

/-- Model of the response validation of `VertexAIService.verify_claim`
(lines 162-190): `parsed = none` is a `json.JSONDecodeError` (confidence
0.3); otherwise the verdict is checked against the closed set and the
confidence field is replaced by 0.5 when it is missing, non-numeric, or
greater than 1.  A numeric confidence field itself is `Option ℚ`
(`none` = absent or not a number). -/
def verify_claim_validate (parsed : Option (Str × Option ℚ)) : VerifyOutcome :=
  match parsed with
  | none => { verdict := str "unverified", confidence := 3/10 }
  | some (v, c) =>
    { verdict := if v ∈ verdict_enum then v else str "unverified",
      confidence :=
        match c with
        | none => 1/2
        | some x => if x > 1 then 1/2 else x }

/-! ## backend/routers/claims.py -/

/-- The fields of a Firestore `claims/{claim_id}` document that the router
reads or writes. -/
structure ClaimDoc where
  text : Option Str
  image_url : Option Str
  language : Str
  status : Str
  error : Option Str
  verdict : Option Str
  confidence_score : Option ℚ
  harm_level : Option Str
  deriving DecidableEq

/-- The fields of a `verifications/{claim_id}` document kept by the model. -/
structure VerificationDoc where
  verdict : Str
  confidence_score : ℚ
  harm_level : Str
  explanation : Str
  suggested_actions : List Str
  claims_found : ℕ

/-- The two Firestore collections touched by the router. -/
structure Store where
  claims : List (Str × ClaimDoc)
  verifications : List (Str × VerificationDoc)

/-- One Firestore write performed by the router (document writes to the
`claims` or `verifications` collection). -/
inductive WriteOp
  | updateClaim (id : Str) (newStatus : Str)
  | setVerification (id : Str)
  deriving DecidableEq

def lookupClaim (s : Store) (id : Str) : Option ClaimDoc :=
  (s.claims.find? (fun p => decide (p.1 = id))).map Prod.snd

def lookupVerification (s : Store) (id : Str) : Option VerificationDoc :=
  (s.verifications.find? (fun p => decide (p.1 = id))).map Prod.snd

/-- Firestore `claims.document(id).update(f)`. -/
def updateClaimDoc (s : Store) (id : Str) (f : ClaimDoc → ClaimDoc) : Store :=
  { claims := s.claims.map (fun p => if p.1 = id then (p.1, f p.2) else p),
    verifications := s.verifications }

/-- Firestore `verifications.document(id).set(v)`: overwrite by id, creating
the document when absent (no duplicate documents under one id). -/
def setVerificationDoc (s : Store) (id : Str) (v : VerificationDoc) : Store :=
  if (s.verifications.find? (fun p => decide (p.1 = id))).isSome then
    { claims := s.claims,
      verifications := s.verifications.map (fun p => if p.1 = id then (p.1, v) else p) }
  else
    { claims := s.claims, verifications := s.verifications ++ [(id, v)] }

/-- Results of the external services consulted by
`process_claim_immediate`, as total functions of the (step-input) text.
Each service catches its own errors and returns a fallback, so totality is
faithful; `classify` can be instantiated with `classify_harm`. -/
structure PipelineEnv where
  ocr_text : Str → Str
  translate : Str → Str → Str
  detect : Str → List Str
  sources : Str → List Str
  verify : Str → VerifyOutcome
  classify : Str → Str → ClassificationResult
  explanation : Str → Str

/-- Python truthiness of an optional string. -/
def pyTruthy (o : Option Str) : Bool :=
  match o with
  | none => false
  | some s => !s.isEmpty

/-- Model of `process_claim_immediate`: the status is set to `processing`
unconditionally (no read of the stored status first), then the pipeline
runs; an empty claim text raises `ValueError`, and the shared `except`
handler records status `failed` with the error message; otherwise a
verification document is written and the claim is marked `completed`.
The returned list is the trace of Firestore writes performed. -/
def process_claim_immediate (env : PipelineEnv) (claim_id : Str)
    (claim_data : ClaimDoc) (store : Store) : Store × List WriteOp :=
  let store1 := updateClaimDoc store claim_id
    (fun d => { d with status := str "processing" })
  let log1 := [WriteOp.updateClaim claim_id (str "processing")]
  let claim_text0 := claim_data.text.getD []
  let claim_text :=
    if pyTruthy claim_data.image_url && claim_text0.isEmpty then
      env.ocr_text (claim_data.image_url.getD [])
    else claim_text0
  if claim_text.isEmpty then
    (updateClaimDoc store1 claim_id
      (fun d => { d with status := str "failed",
                         error := some (str "No text found in claim or extracted from image") }),
     log1 ++ [WriteOp.updateClaim claim_id (str "failed")])
  else
    let claim_text2 :=
      if claim_data.language ≠ str "en" then
        env.translate claim_text claim_data.language
      else claim_text
    let claims_detected := env.detect claim_text2
    let vres := env.verify claim_text2
    let harm := env.classify claim_text2 vres.verdict
    let vdoc : VerificationDoc :=
      { verdict := vres.verdict,
        confidence_score := vres.confidence,
        harm_level := harm.level,
        explanation := env.explanation claim_text2,
        suggested_actions := harm.suggested_actions,
        claims_found := claims_detected.length }
    let store2 := setVerificationDoc store1 claim_id vdoc
    let store3 := updateClaimDoc store2 claim_id
      (fun d => { d with status := str "completed",
                         verdict := some vres.verdict,
                         confidence_score := some vres.confidence,
                         harm_level := some harm.level })
    (store3, log1 ++ [WriteOp.setVerification claim_id,
                      WriteOp.updateClaim claim_id (str "completed")])

/-- Outcome of `submit_claim` at intake: rejection with HTTP 400 before any
record is created or any processing is queued, or acceptance (record
created, pipeline queued). -/
inductive SubmitOutcome
  | rejected (detail : Str)
  | accepted (pipeline_queued : Bool)
  deriving DecidableEq

/-- Python falsiness of the optional `text` form field. -/
def pyFalsyText (o : Option Str) : Bool :=
  match o with
  | none => true
  | some s => s.isEmpty

/-- Model of the intake validation of `submit_claim` (`image_present` is the
truthiness of the optional upload object): with neither text nor image the
request is rejected at once; otherwise the claim record is stored and
processing is queued. -/
def submit_claim (text : Option Str) (image_present : Bool) : SubmitOutcome :=
  if pyFalsyText text && !image_present then
    SubmitOutcome.rejected (str "Either text or image must be provided")
  else SubmitOutcome.accepted true

/-! ## Concrete fixtures used to instantiate the theorems -/

/-- Regex oracle on which no pattern ever matches. -/
def trivialOracle : RegexOracle :=
  { findall := fun _ _ => [], search := fun _ _ => false }

/-- Regex oracle matching exactly the first dangerous-health pattern. -/
def healthMatchOracle : RegexOracle :=
  { findall := fun p _ =>
      if p = str "\\b(cure|treat|prevent)\\s+(?:cancer|diabetes|covid|coronavirus|aids)\\b"
      then [str "cure cancer"] else [],
    search := fun _ _ => false }

/-- Fallible oracle raising on exactly the first dangerous-health pattern:
a single internal detector error. -/
def failingHealthOracle : FallibleOracle :=
  { findall := fun p _ =>
      if p = str "\\b(cure|treat|prevent)\\s+(?:cancer|diabetes|covid|coronavirus|aids)\\b"
      then none else some [],
    search := fun _ _ => some false }

/-- Fallible oracle on which no call raises and no pattern matches. -/
def totalOracle : FallibleOracle :=
  { findall := fun _ _ => some [], search := fun _ _ => some false }

/-- A pipeline environment made of constant service answers. -/
def constEnv : PipelineEnv :=
  { ocr_text := fun _ => str "t",
    translate := fun t _ => t,
    detect := fun _ => [str "claim"],
    sources := fun _ => [],
    verify := fun _ => { verdict := str "false", confidence := 9/10 },
    classify := fun t v => classify_harm trivialOracle t v,
    explanation := fun _ => str "explanation text" }

/-- A claim record already in `completed` status. -/
def completedClaim : ClaimDoc :=
  { text := some (str "the earth is flat"), image_url := none,
    language := str "en", status := str "completed", error := none,
    verdict := some (str "false"), confidence_score := some (9/10),
    harm_level := some (str "basic") }

def completedVDoc : VerificationDoc :=
  { verdict := str "false", confidence_score := 9/10,
    harm_level := str "basic", explanation := str "explanation text",
    suggested_actions := [], claims_found := 1 }

/-- A store holding the completed claim and its verification document. -/
def completedStore : Store :=
  { claims := [(str "claim-1", completedClaim)],
    verifications := [(str "claim-1", completedVDoc)] }

/-- A claim record carrying only an image. -/
def imageOnlyClaim : ClaimDoc :=
  { text := none, image_url := some (str "gs://bucket/img.png"),
    language := str "en", status := str "submitted", error := none,
    verdict := none, confidence_score := none, harm_level := none }

def imageOnlyStore : Store :=
  { claims := [(str "claim-2", imageOnlyClaim)], verifications := [] }

/-- The constant environment, with OCR extracting empty text. -/
def emptyOcrEnv : PipelineEnv := { constEnv with ocr_text := fun _ => [] }

/-- The constant environment, with claim detection yielding zero claims. -/
def zeroDetectEnv : PipelineEnv := { constEnv with detect := fun _ => [] }

/-- A plain text claim record. -/
def textClaim : ClaimDoc :=
  { text := some (str "The moon is made of cheese"), image_url := none,
    language := str "en", status := str "submitted", error := none,
    verdict := none, confidence_score := none, harm_level := none }

def textStore : Store :=
  { claims := [(str "claim-3", textClaim)], verifications := [] }

/-! ## Helper lemmas -/

lemma le_collectMatches_sev (f : Str → Str → List Str) (text : Str) (inc : ℚ)
    (h : 0 ≤ inc) :
    ∀ (ps : List Str) (sev : ℚ), sev ≤ (collectMatches f text inc ps sev).2 := by
  intro ps
  induction ps with
  | nil => intro sev; simp [collectMatches]
  | cons p ps ih =>
    intro sev
    simp only [collectMatches]
    by_cases hc : f p text = []
    · simpa [hc] using ih sev
    · have h1 : sev + inc ≤ (collectMatches f text inc ps (sev + inc)).2 := ih (sev + inc)
      simp only [hc, if_false]
      calc sev ≤ sev + inc := by linarith
        _ ≤ _ := h1

lemma collectMatches_fst_eq_nil (f : Str → Str → List Str) (text : Str) (inc : ℚ) :
    ∀ (ps : List Str) (sev : ℚ),
      ((collectMatches f text inc ps sev).1 = [] ↔ ∀ p ∈ ps, f p text = []) := by
  intro ps
  induction ps with
  | nil => intro sev; simp [collectMatches]
  | cons p ps ih =>
    intro sev
    simp only [collectMatches]
    by_cases hc : f p text = []
    · simp [hc, ih sev]
    · simp [hc, ih (sev + inc)]

lemma severity_weights_nonneg (k : Str) : 0 ≤ severity_weights k := by
  unfold severity_weights
  split_ifs <;> norm_num

lemma analyze_severity_nonneg (o : RegexOracle) (text : Str) :
    ∀ t, 0 ≤ (_analyze_harm_indicators o text t).severity := by
  intro t
  have hmin : ∀ x : ℚ, 0 ≤ x → 0 ≤ min 1 x := fun x hx => le_min (by norm_num) hx
  cases t <;>
    simp only [_analyze_harm_indicators, _detect_health_claims,
      _detect_violence_content, _detect_financial_scams,
      _detect_conspiracy_elements, _detect_discrimination,
      _detect_urgency_tactics, _detect_authority_claims,
      _detect_emotional_tactics]
  case health_misinformation =>
    refine hmin _ ?_
    have h1 : (0:ℚ) ≤ (collectMatches o.findall text (3/10) dangerous_health_claims 0).2 :=
      le_collectMatches_sev o.findall text (3/10) (by norm_num) dangerous_health_claims 0
    have h2 : (0:ℚ) ≤ min ((4:ℚ)/10) ((keywordCount harm_keywords_health text : ℚ) * (1/10)) :=
      le_min (by norm_num) (by positivity)
    linarith
  case violence_incitement =>
    exact hmin _ (le_collectMatches_sev o.findall text (4/10) (by norm_num) violence_patterns 0)
  case financial_fraud =>
    exact hmin _ (le_collectMatches_sev o.findall text (25/100) (by norm_num) financial_scam_patterns 0)
  case conspiracy_theories =>
    refine hmin _ ?_
    have h0 : (0:ℚ) ≤ min ((3:ℚ)/10) ((keywordCount conspiracy_keywords text : ℚ) * (1/10)) :=
      le_min (by norm_num) (by positivity)
    exact le_trans h0 (le_collectMatches_sev o.findall text (15/100) (by norm_num) conspiracy_patterns _)
  case discriminatory_content =>
    exact hmin _ (le_collectMatches_sev o.findall text (3/10) (by norm_num) discriminatory_patterns 0)
  case urgency_manipulation =>
    exact hmin _ (le_collectMatches_sev o.findall text (1/10) (by norm_num) urgency_patterns 0)
  case authority_impersonation =>
    exact hmin _ (le_collectMatches_sev o.findall text (15/100) (by norm_num) authority_patterns 0)
  case emotional_manipulation =>
    exact hmin _ (le_collectMatches_sev o.findall text (1/10) (by norm_num) emotional_patterns 0)

lemma base_severity_foldl_nonneg (ind : IndicatorType → IndicatorResult)
    (h : ∀ t, 0 ≤ (ind t).severity) :
    ∀ (l : List IndicatorType) (acc : ℚ), 0 ≤ acc →
      0 ≤ l.foldl
        (fun acc t =>
          if (ind t).detected then
            acc + (ind t).severity * severity_weights (firstComponent (indicatorName t))
          else acc) acc := by
  intro l
  induction l with
  | nil => intro acc hacc; simpa using hacc
  | cons t ts ih =>
    intro acc hacc
    simp only [List.foldl_cons]
    by_cases hd : (ind t).detected
    · refine ih _ ?_
      have := mul_nonneg (h t) (severity_weights_nonneg (firstComponent (indicatorName t)))
      simp only [hd, if_true]
      linarith
    · simp only [hd, if_false]
      exact ih _ hacc

lemma base_severity_nonneg (o : RegexOracle) (text : Str) :
    0 ≤ _calculate_base_severity (_analyze_harm_indicators o text) := by
  unfold _calculate_base_severity
  exact le_min (by norm_num)
    (base_severity_foldl_nonneg _ (analyze_severity_nonneg o text) indicatorOrder 0 le_rfl)

lemma base_severity_le_one (ind : IndicatorType → IndicatorResult) :
    _calculate_base_severity ind ≤ 1 := min_le_left _ _

lemma verdict_multiplier_nonneg (v : Str) : 0 ≤ _get_verdict_multiplier v := by
  unfold _get_verdict_multiplier
  split_ifs <;> norm_num

lemma verdict_multiplier_le_one (v : Str) : _get_verdict_multiplier v ≤ 1 := by
  unfold _get_verdict_multiplier
  split_ifs <;> norm_num

lemma classify_severity_eq (o : RegexOracle) (text verdict : Str) :
    (classify_harm o text verdict).severity_score =
      _calculate_base_severity (_analyze_harm_indicators o text) *
        _get_verdict_multiplier verdict := rfl

lemma classify_level_eq (o : RegexOracle) (text verdict : Str) :
    (classify_harm o text verdict).level =
      _determine_harm_level ((classify_harm o text verdict).severity_score) := rfl

lemma classify_risk_eq (o : RegexOracle) (text verdict : Str) :
    (classify_harm o text verdict).risk_factors =
      _identify_risk_factors o text (_analyze_harm_indicators o text) := rfl

lemma classify_escalation_eq (o : RegexOracle) (text verdict : Str) :
    (classify_harm o text verdict).escalation_required =
      _requires_escalation ((classify_harm o text verdict).level)
        ((classify_harm o text verdict).risk_factors) := rfl

lemma classify_confidence_eq (o : RegexOracle) (text verdict : Str) :
    (classify_harm o text verdict).confidence =
      _calculate_confidence (_analyze_harm_indicators o text)
        ((classify_harm o text verdict).severity_score) := rfl

lemma classify_severity_nonneg (o : RegexOracle) (text verdict : Str) :
    0 ≤ (classify_harm o text verdict).severity_score := by
  rw [classify_severity_eq]
  exact mul_nonneg (base_severity_nonneg o text) (verdict_multiplier_nonneg verdict)

lemma classify_severity_le_one (o : RegexOracle) (text verdict : Str) :
    (classify_harm o text verdict).severity_score ≤ 1 := by
  rw [classify_severity_eq]
  calc _calculate_base_severity (_analyze_harm_indicators o text) *
        _get_verdict_multiplier verdict ≤ 1 * 1 := by
        exact mul_le_mul (base_severity_le_one _) (verdict_multiplier_le_one verdict)
          (verdict_multiplier_nonneg verdict) (by norm_num)
    _ = 1 := by norm_num

lemma collectMatches_snd_closed (f : Str → Str → List Str) (text : Str) (inc : ℚ) :
    ∀ (ps : List Str) (sev : ℚ),
      (collectMatches f text inc ps sev).2 =
        sev + inc * ((ps.filter (fun p => decide (f p text ≠ []))).length : ℚ) := by
  intro ps
  induction ps with
  | nil => intro sev; simp [collectMatches]
  | cons p ps ih =>
    intro sev
    simp only [collectMatches]
    by_cases hc : f p text = []
    · simp only [hc, if_true, List.filter_cons]
      rw [ih sev]
      simp [hc]
    · simp only [hc, if_false, List.filter_cons]
      rw [ih (sev + inc)]
      simp only [hc, ne_eq, not_false_eq_true, decide_True, if_true, List.length_cons]
      push_cast
      ring

lemma calculate_confidence_eq (ind : IndicatorType → IndicatorResult) (sev : ℚ) :
    _calculate_confidence ind sev =
      if (indicatorOrder.filter (fun t => (ind t).detected)).length = 0 then 9/10
      else min ((95:ℚ)/100)
        (6/10 + ((indicatorOrder.filter (fun t => (ind t).detected)).length : ℚ) * (1/10)
          + sev * (3/10)) := rfl

lemma requires_escalation_iff (hl : Str) (rf : List Str) :
    _requires_escalation hl rf = true ↔
      (hl = str "very_harmful" ∨ ∃ f ∈ rf, f ∈ escalation_triggers) := by
  unfold _requires_escalation
  by_cases h : hl = str "very_harmful"
  · simp [h]
  · simp [h, List.any_eq_true]

lemma collectMatches_const_nil (text : Str) (inc : ℚ) :
    ∀ (ps : List Str) (sev : ℚ),
      collectMatches (fun _ _ => ([] : List Str)) text inc ps sev = ([], sev) := by
  intro ps
  induction ps with
  | nil => intro sev; simp [collectMatches]
  | cons p ps ih => intro sev; simp [collectMatches, ih]

lemma trivial_empty_detected :
    ∀ ty, (_analyze_harm_indicators trivialOracle [] ty).detected = false := by
  have hkc : keywordCount conspiracy_keywords [] = 0 := by decide
  intro ty
  cases ty <;>
    norm_num [_analyze_harm_indicators, _detect_health_claims,
      _detect_violence_content, _detect_financial_scams,
      _detect_conspiracy_elements, _detect_discrimination,
      _detect_urgency_tactics, _detect_authority_claims,
      _detect_emotional_tactics, trivialOracle, collectMatches_const_nil, hkc]

lemma trivial_empty_dc :
    (indicatorOrder.filter
      (fun t => (_analyze_harm_indicators trivialOracle [] t).detected)).length = 0 := by
  simp [indicatorOrder, trivial_empty_detected]

lemma hmo_empty_health_fst :
    (collectMatches healthMatchOracle.findall [] (3/10) dangerous_health_claims 0).1 =
      [str "cure cancer"] := by
  decide

lemma hmo_empty_detected :
    ∀ ty, (_analyze_harm_indicators healthMatchOracle [] ty).detected =
      decide (ty = IndicatorType.health_misinformation) := by
  have hkc : keywordCount conspiracy_keywords [] = 0 := by decide
  have hcon : (conspiracy_patterns.filter
      (fun p => !decide (healthMatchOracle.findall p [] = []))).length = 0 := by decide
  intro ty
  cases ty
  case conspiracy_theories =>
    have hd : (decide (IndicatorType.conspiracy_theories =
        IndicatorType.health_misinformation)) = false := by decide
    rw [hd]
    norm_num [_analyze_harm_indicators, _detect_conspiracy_elements,
      collectMatches_snd_closed, hcon, hkc]
  all_goals decide

lemma hmo_empty_dc :
    (indicatorOrder.filter
      (fun t => (_analyze_harm_indicators healthMatchOracle [] t).detected)).length = 1 := by
  simp [indicatorOrder, hmo_empty_detected]

/-! ## Claim theorems -/

/-- C1: for every adjusted severity score `s`, `_determine_harm_level` is the
fixed total step function: `s ≥ 0.7 → very_harmful`, `0.3 ≤ s < 0.7 → basic`,
`s < 0.3 → harmless`, the boundary values 0.7 and 0.3 mapping to the higher
level. -/
theorem C1_harm_level_step (s : ℚ) :
    (7/10 ≤ s → _determine_harm_level s = str "very_harmful") ∧
    (3/10 ≤ s → s < 7/10 → _determine_harm_level s = str "basic") ∧
    (s < 3/10 → _determine_harm_level s = str "harmless") := by
  unfold _determine_harm_level
  refine ⟨fun h => ?_, fun h1 h2 => ?_, fun h => ?_⟩ <;>
    split_ifs <;> first | rfl | (exfalso; linarith)

/-- Witness for C1 at the boundary inputs 0.7, 0.3 and an interior point. -/
theorem C1_harm_level_step_witness :
    _determine_harm_level (7/10) = str "very_harmful" ∧
    _determine_harm_level (3/10) = str "basic" ∧
    _determine_harm_level (29/100) = str "harmless" :=
  ⟨(C1_harm_level_step (7/10)).1 (by norm_num),
   (C1_harm_level_step (3/10)).2.1 (by norm_num) (by norm_num),
   (C1_harm_level_step (29/100)).2.2 (by norm_num)⟩

/-- C6: the adjusted severity is the base severity times the verdict
multiplier (false 1.0, misleading 0.8, unverified 0.6, true 0.2); hence it
never exceeds the base severity, and for verdict `true` it is at most
`0.2 ×` the base severity. -/
theorem C6_verdict_adjustment (o : RegexOracle) (text verdict : Str) :
    (classify_harm o text verdict).severity_score =
      _calculate_base_severity (_analyze_harm_indicators o text) *
        _get_verdict_multiplier verdict ∧
    _get_verdict_multiplier (str "false") = 1 ∧
    _get_verdict_multiplier (str "misleading") = 8/10 ∧
    _get_verdict_multiplier (str "unverified") = 6/10 ∧
    _get_verdict_multiplier (str "true") = 2/10 ∧
    (classify_harm o text verdict).severity_score ≤
      _calculate_base_severity (_analyze_harm_indicators o text) ∧
    (verdict = str "true" →
      (classify_harm o text verdict).severity_score ≤
        2/10 * _calculate_base_severity (_analyze_harm_indicators o text)) := by
  have hmt : _get_verdict_multiplier (str "true") = 2/10 := by
    unfold _get_verdict_multiplier
    rw [if_neg (by decide), if_neg (by decide), if_neg (by decide),
      if_pos (by decide : pyLower (str "true") = str "true")]
  refine ⟨classify_severity_eq o text verdict, ?_, ?_, ?_, hmt, ?_, ?_⟩
  · unfold _get_verdict_multiplier
    rw [if_pos (by decide : pyLower (str "false") = str "false")]
  · unfold _get_verdict_multiplier
    rw [if_neg (by decide),
      if_pos (by decide : pyLower (str "misleading") = str "misleading")]
  · unfold _get_verdict_multiplier
    rw [if_neg (by decide), if_neg (by decide),
      if_pos (by decide : pyLower (str "unverified") = str "unverified")]
  · rw [classify_severity_eq]
    exact mul_le_of_le_one_right (base_severity_nonneg o text)
      (verdict_multiplier_le_one verdict)
  · intro hv
    subst hv
    rw [classify_severity_eq, hmt]
    exact le_of_eq (mul_comm _ _)

/-- Witness for C6 at the all-miss oracle, empty text and verdict `true`. -/
theorem C6_verdict_adjustment_witness :
    (classify_harm trivialOracle [] (str "true")).severity_score ≤
      2/10 * _calculate_base_severity (_analyze_harm_indicators trivialOracle []) :=
  (C6_verdict_adjustment trivialOracle [] (str "true")).2.2.2.2.2.2 rfl

/-- C7: on the normal path the confidence is exactly 0.9 when zero harm
categories are detected, and otherwise equals
`min(0.95, 0.6 + 0.1 × detected_count + 0.3 × adjusted_severity)`; in every
case it lies in `[0, 1]`. -/
theorem C7_confidence_formula (o : RegexOracle) (text verdict : Str) :
    ((indicatorOrder.filter
        (fun t => (_analyze_harm_indicators o text t).detected)).length = 0 →
      (classify_harm o text verdict).confidence = 9/10) ∧
    ((indicatorOrder.filter
        (fun t => (_analyze_harm_indicators o text t).detected)).length ≠ 0 →
      (classify_harm o text verdict).confidence =
        min ((95:ℚ)/100)
          (6/10 + ((indicatorOrder.filter
              (fun t => (_analyze_harm_indicators o text t).detected)).length : ℚ) * (1/10)
            + (classify_harm o text verdict).severity_score * (3/10))) ∧
    0 ≤ (classify_harm o text verdict).confidence ∧
    (classify_harm o text verdict).confidence ≤ 1 := by
  have h := classify_confidence_eq o text verdict
  rw [calculate_confidence_eq] at h
  by_cases hdc : (indicatorOrder.filter
      (fun t => (_analyze_harm_indicators o text t).detected)).length = 0
  · rw [if_pos hdc] at h
    exact ⟨fun _ => h, fun hne => absurd hdc hne, by rw [h]; norm_num,
      by rw [h]; norm_num⟩
  · rw [if_neg hdc] at h
    refine ⟨fun h0 => absurd h0 hdc, fun _ => h, ?_, ?_⟩
    · rw [h]
      refine le_min (by norm_num) ?_
      have hs : (0:ℚ) ≤ (classify_harm o text verdict).severity_score * (3/10) :=
        mul_nonneg (classify_severity_nonneg o text verdict) (by norm_num)
      have hn : (0:ℚ) ≤ ((indicatorOrder.filter
          (fun t => (_analyze_harm_indicators o text t).detected)).length : ℚ) * (1/10) := by
        positivity
      linarith
    · rw [h]
      exact le_trans (min_le_left _ _) (by norm_num)

/-- Witness for C7: zero detected categories (confidence 0.9) and one
detected category (the min formula), each by applying the theorem. -/
theorem C7_confidence_formula_witness :
    (classify_harm trivialOracle [] (str "false")).confidence = 9/10 ∧
    (classify_harm healthMatchOracle [] (str "false")).confidence =
      min ((95:ℚ)/100)
        (6/10 + ((indicatorOrder.filter
            (fun t => (_analyze_harm_indicators healthMatchOracle [] t).detected)).length : ℚ) * (1/10)
          + (classify_harm healthMatchOracle [] (str "false")).severity_score * (3/10)) :=
  ⟨(C7_confidence_formula trivialOracle [] (str "false")).1 trivial_empty_dc,
   (C7_confidence_formula healthMatchOracle [] (str "false")).2.1
     (by rw [hmo_empty_dc]; decide)⟩

lemma ite_len_pos_iff (l : List Str) :
    ((if 0 < l.length then true else false) = true ↔ l ≠ []) := by
  cases l <;> simp

lemma collect_detected_iff (f : Str → Str → List Str) (text : Str) (inc : ℚ)
    (ps : List Str) (sev : ℚ) :
    ((if 0 < (collectMatches f text inc ps sev).1.length then true else false) = true ↔
      ∃ p ∈ ps, f p text ≠ []) := by
  rw [ite_len_pos_iff]
  have h := collectMatches_fst_eq_nil f text inc ps sev
  constructor
  · intro hne
    by_contra hno
    push_neg at hno
    exact hne (h.mpr hno)
  · rintro ⟨p, hp, hpm⟩ hnil
    exact hpm (h.mp hnil p hp)

lemma ite_pos_iff_min (a : ℚ) :
    ((if 0 < a then true else false) = true ↔ 0 < min 1 a) := by
  split_ifs with h
  · simp [lt_min_iff, h]
  · simp [lt_min_iff, h]

/-! Evaluation of the `healthMatchOracle` run on the text `vaccine`. -/

lemma hv_health_detected :
    (_analyze_harm_indicators healthMatchOracle (str "vaccine")
      IndicatorType.health_misinformation).detected = true := by
  decide

lemma hv_conspiracy_detected :
    (_analyze_harm_indicators healthMatchOracle (str "vaccine")
      IndicatorType.conspiracy_theories).detected = false := by
  have hkc : keywordCount conspiracy_keywords (str "vaccine") = 0 := by decide
  have hcon : (conspiracy_patterns.filter
      (fun p => !decide (healthMatchOracle.findall p (str "vaccine") = []))).length = 0 := by
    decide
  norm_num [_analyze_harm_indicators, _detect_conspiracy_elements,
    collectMatches_snd_closed, hcon, hkc]

lemma hv_health_severity :
    (_analyze_harm_indicators healthMatchOracle (str "vaccine")
      IndicatorType.health_misinformation).severity = 2/5 := by
  have hcount : (dangerous_health_claims.filter
      (fun p => !decide (healthMatchOracle.findall p (str "vaccine") = []))).length = 1 := by
    decide
  have hkh : keywordCount harm_keywords_health (str "vaccine") = 1 := by decide
  norm_num [_analyze_harm_indicators, _detect_health_claims,
    collectMatches_snd_closed, hcount, hkh]

lemma hv_base :
    _calculate_base_severity
      (_analyze_harm_indicators healthMatchOracle (str "vaccine")) = 9/25 := by
  have hd_v : (_analyze_harm_indicators healthMatchOracle (str "vaccine")
      IndicatorType.violence_incitement).detected = false := by decide
  have hd_f : (_analyze_harm_indicators healthMatchOracle (str "vaccine")
      IndicatorType.financial_fraud).detected = false := by decide
  have hd_d : (_analyze_harm_indicators healthMatchOracle (str "vaccine")
      IndicatorType.discriminatory_content).detected = false := by decide
  have hd_u : (_analyze_harm_indicators healthMatchOracle (str "vaccine")
      IndicatorType.urgency_manipulation).detected = false := by decide
  have hd_a : (_analyze_harm_indicators healthMatchOracle (str "vaccine")
      IndicatorType.authority_impersonation).detected = false := by decide
  have hd_e : (_analyze_harm_indicators healthMatchOracle (str "vaccine")
      IndicatorType.emotional_manipulation).detected = false := by decide
  have hw : severity_weights (firstComponent
      (indicatorName IndicatorType.health_misinformation)) = 9/10 := by
    have h1 : firstComponent (indicatorName IndicatorType.health_misinformation) =
        str "health" := by decide
    rw [h1]
    unfold severity_weights
    rw [if_pos rfl]
  norm_num [_calculate_base_severity, indicatorOrder, hv_health_detected,
    hv_conspiracy_detected, hv_health_severity, hd_v, hd_f, hd_d, hd_u, hd_a,
    hd_e, hw]

lemma hv_sev :
    (classify_harm healthMatchOracle (str "vaccine") (str "false")).severity_score
      = 9/25 := by
  rw [classify_severity_eq, hv_base]
  unfold _get_verdict_multiplier
  rw [if_pos (by decide : pyLower (str "false") = str "false")]
  norm_num

lemma hv_level :
    (classify_harm healthMatchOracle (str "vaccine") (str "false")).level
      = str "basic" := by
  rw [classify_level_eq, hv_sev]
  unfold _determine_harm_level
  rw [if_neg (by norm_num : ¬ ((9:ℚ)/25 ≥ 7/10)), if_pos (by norm_num : (9:ℚ)/25 ≥ 3/10)]

lemma hv_risk :
    (classify_harm healthMatchOracle (str "vaccine") (str "false")).risk_factors
      = [str "Health Misinformation"] := by
  have hd_v : (_analyze_harm_indicators healthMatchOracle (str "vaccine")
      IndicatorType.violence_incitement).detected = false := by decide
  have hd_f : (_analyze_harm_indicators healthMatchOracle (str "vaccine")
      IndicatorType.financial_fraud).detected = false := by decide
  have hd_d : (_analyze_harm_indicators healthMatchOracle (str "vaccine")
      IndicatorType.discriminatory_content).detected = false := by decide
  have hd_u : (_analyze_harm_indicators healthMatchOracle (str "vaccine")
      IndicatorType.urgency_manipulation).detected = false := by decide
  have hd_a : (_analyze_harm_indicators healthMatchOracle (str "vaccine")
      IndicatorType.authority_impersonation).detected = false := by decide
  have hd_e : (_analyze_harm_indicators healthMatchOracle (str "vaccine")
      IndicatorType.emotional_manipulation).detected = false := by decide
  have hsearch : healthMatchOracle.search viral_pattern (str "vaccine") = false := by decide
  have hlen : (str "vaccine").length = 7 := by decide
  rw [classify_risk_eq]
  unfold _identify_risk_factors
  norm_num [indicatorOrder, hv_health_detected, hv_conspiracy_detected,
    hv_health_severity, hd_v, hd_f, hd_d, hd_u, hd_a, hd_e, hsearch, hlen,
    titleName]

lemma hv_escalation :
    (classify_harm healthMatchOracle (str "vaccine") (str "false")).escalation_required
      = true := by
  rw [classify_escalation_eq, hv_level, hv_risk]
  decide

/-- C3: on the normal path, escalation is required iff the level is
`very_harmful` or one of the three high-stakes categories (Violence
Incitement, Health Misinformation, Discriminatory Content) is among the risk
factors; in particular escalation can hold at level `basic`, witnessed by a
health-pattern match on the text `vaccine` with verdict `false`. -/
theorem C3_escalation_rule :
    (∀ (o : RegexOracle) (text verdict : Str),
      ((classify_harm o text verdict).escalation_required = true ↔
        ((classify_harm o text verdict).level = str "very_harmful" ∨
          ∃ f ∈ (classify_harm o text verdict).risk_factors,
            f ∈ escalation_triggers))) ∧
    (classify_harm healthMatchOracle (str "vaccine") (str "false")).level
      = str "basic" ∧
    (classify_harm healthMatchOracle (str "vaccine") (str "false")).escalation_required
      = true := by
  refine ⟨fun o text verdict => ?_, hv_level, hv_escalation⟩
  rw [classify_escalation_eq]
  exact requires_escalation_iff _ _

/-- C4 (amended): `classify_harm` never raises past its boundary; any
internal error — including a single detector's regex call raising — is caught
by the one outer handler and yields the fixed fallback result (level `basic`,
confidence 0.3, escalation false, risk factors `["Analysis unavailable"]`,
generic cautionary actions); when no internal call raises, the normal-path
result is returned.  There is no per-category degradation. -/
theorem C4_failure_semantics (o : FallibleOracle) (text verdict : Str) :
    (oracle_raises o text = true →
      classify_harm_total o text verdict = _create_fallback_classification) ∧
    (oracle_raises o text = false →
      classify_harm_total o text verdict =
        classify_harm (lift_oracle o) text verdict) ∧
    _create_fallback_classification.level = str "basic" ∧
    _create_fallback_classification.confidence = 3/10 ∧
    _create_fallback_classification.escalation_required = false ∧
    _create_fallback_classification.risk_factors = [str "Analysis unavailable"] ∧
    _create_fallback_classification.suggested_actions =
      [str "Verify information before sharing",
       str "Consult multiple reliable sources"] := by
  unfold classify_harm_total
  exact ⟨fun h => by rw [if_pos h], fun h => by rw [if_neg (by simp [h])],
    rfl, rfl, rfl, rfl, rfl⟩

/-- Witness for C4: a raising oracle resolves to the fallback, and a
non-raising oracle resolves to the normal path. -/
theorem C4_failure_semantics_witness :
    classify_harm_total failingHealthOracle [] (str "false")
      = _create_fallback_classification ∧
    classify_harm_total totalOracle [] (str "false")
      = classify_harm (lift_oracle totalOracle) [] (str "false") :=
  ⟨(C4_failure_semantics failingHealthOracle [] (str "false")).1 (by decide),
   (C4_failure_semantics totalOracle [] (str "false")).2.1 (by decide)⟩

/-- C4 counterexample: `failingHealthOracle` raises on exactly one health
pattern call — a single internal detector error, not a total engine failure —
yet the engine answers with the fixed fallback, not with a best-effort result
in which only that category is degraded to not-detected (that result would be
the normal path on the lifted oracle, whose confidence is 0.9, not 0.3). -/
theorem C4_counterexample_single_detector :
    classify_harm_total failingHealthOracle [] (str "false")
      = _create_fallback_classification ∧
    classify_harm_total failingHealthOracle [] (str "false")
      ≠ classify_harm (lift_oracle failingHealthOracle) [] (str "false") := by
  have hfb : classify_harm_total failingHealthOracle [] (str "false")
      = _create_fallback_classification := by
    unfold classify_harm_total
    rw [if_pos (by decide : oracle_raises failingHealthOracle [] = true)]
  have hkc : keywordCount conspiracy_keywords [] = 0 := by decide
  have hcon : (conspiracy_patterns.filter
      (fun p => !decide ((lift_oracle failingHealthOracle).findall p [] = []))).length
        = 0 := by decide
  have hd_c : (_analyze_harm_indicators (lift_oracle failingHealthOracle) []
      IndicatorType.conspiracy_theories).detected = false := by
    norm_num [_analyze_harm_indicators, _detect_conspiracy_elements,
      collectMatches_snd_closed, hcon, hkc]
  have hd_h : (_analyze_harm_indicators (lift_oracle failingHealthOracle) []
      IndicatorType.health_misinformation).detected = false := by decide
  have hd_v : (_analyze_harm_indicators (lift_oracle failingHealthOracle) []
      IndicatorType.violence_incitement).detected = false := by decide
  have hd_f : (_analyze_harm_indicators (lift_oracle failingHealthOracle) []
      IndicatorType.financial_fraud).detected = false := by decide
  have hd_d : (_analyze_harm_indicators (lift_oracle failingHealthOracle) []
      IndicatorType.discriminatory_content).detected = false := by decide
  have hd_u : (_analyze_harm_indicators (lift_oracle failingHealthOracle) []
      IndicatorType.urgency_manipulation).detected = false := by decide
  have hd_a : (_analyze_harm_indicators (lift_oracle failingHealthOracle) []
      IndicatorType.authority_impersonation).detected = false := by decide
  have hd_e : (_analyze_harm_indicators (lift_oracle failingHealthOracle) []
      IndicatorType.emotional_manipulation).detected = false := by decide
  have hdc : (indicatorOrder.filter
      (fun t => (_analyze_harm_indicators (lift_oracle failingHealthOracle) [] t).detected)).length
        = 0 := by
    simp [indicatorOrder, hd_h, hd_v, hd_f, hd_c, hd_d, hd_u, hd_a, hd_e]
  have hconf : (classify_harm (lift_oracle failingHealthOracle) []
      (str "false")).confidence = 9/10 := by
    rw [classify_confidence_eq, calculate_confidence_eq, if_pos hdc]
  refine ⟨hfb, fun h => ?_⟩
  rw [hfb] at h
  have := congrArg ClassificationResult.confidence h
  rw [hconf] at this
  norm_num [_create_fallback_classification] at this

/-- C10: the conspiracy detector reports `detected` exactly when its severity
is strictly positive — so a keyword hit with no regex match yields
`detected = true` with an empty match list — while every other detector
(health included) reports `detected = true` only when some regex pattern
produced a match. -/
theorem C10_detected_semantics :
    (∀ (o : RegexOracle) (text : Str),
      ((_detect_conspiracy_elements o text).detected = true ↔
        0 < (_detect_conspiracy_elements o text).severity)) ∧
    (_detect_conspiracy_elements trivialOracle (str "illuminati")).detected = true ∧
    (_detect_conspiracy_elements trivialOracle (str "illuminati")).«matches» = [] ∧
    (∀ (o : RegexOracle) (text : Str),
      ((_detect_health_claims o text).detected = true ↔
        ∃ p ∈ dangerous_health_claims, o.findall p text ≠ [])) ∧
    (∀ (o : RegexOracle) (text : Str),
      ((_detect_violence_content o text).detected = true ↔
        ∃ p ∈ violence_patterns, o.findall p text ≠ [])) ∧
    (∀ (o : RegexOracle) (text : Str),
      ((_detect_financial_scams o text).detected = true ↔
        ∃ p ∈ financial_scam_patterns, o.findall p text ≠ [])) ∧
    (∀ (o : RegexOracle) (text : Str),
      ((_detect_discrimination o text).detected = true ↔
        ∃ p ∈ discriminatory_patterns, o.findall p text ≠ [])) ∧
    (∀ (o : RegexOracle) (text : Str),
      ((_detect_urgency_tactics o text).detected = true ↔
        ∃ p ∈ urgency_patterns, o.findall p text ≠ [])) ∧
    (∀ (o : RegexOracle) (text : Str),
      ((_detect_authority_claims o text).detected = true ↔
        ∃ p ∈ authority_patterns, o.findall p text ≠ [])) ∧
    (∀ (o : RegexOracle) (text : Str),
      ((_detect_emotional_tactics o text).detected = true ↔
        ∃ p ∈ emotional_patterns, o.findall p text ≠ [])) := by
  refine ⟨fun o text => ite_pos_iff_min _, ?_, by decide,
    fun o text => collect_detected_iff o.findall text (3/10) dangerous_health_claims 0,
    fun o text => collect_detected_iff o.findall text (4/10) violence_patterns 0,
    fun o text => collect_detected_iff o.findall text (25/100) financial_scam_patterns 0,
    fun o text => collect_detected_iff o.findall text (3/10) discriminatory_patterns 0,
    fun o text => collect_detected_iff o.findall text (1/10) urgency_patterns 0,
    fun o text => collect_detected_iff o.findall text (15/100) authority_patterns 0,
    fun o text => collect_detected_iff o.findall text (1/10) emotional_patterns 0⟩
  have hkc : keywordCount conspiracy_keywords (str "illuminati") = 1 := by decide
  norm_num [_detect_conspiracy_elements, trivialOracle, collectMatches_const_nil, hkc]

/-! Lemmas about the Firestore store model. -/

lemma lookupClaim_update (s : Store) (id : Str) (f : ClaimDoc → ClaimDoc) :
    lookupClaim (updateClaimDoc s id f) id = (lookupClaim s id).map f := by
  obtain ⟨cl, vf⟩ := s
  unfold lookupClaim updateClaimDoc
  simp only
  induction cl with
  | nil => simp
  | cons hd tl ih =>
    by_cases h : hd.1 = id
    · simp [List.find?_cons, h]
    · simp only [List.map_cons, List.find?_cons, h, decide_False, if_false]
      exact ih

lemma lookupClaim_setVerification (s : Store) (id vid : Str) (v : VerificationDoc) :
    lookupClaim (setVerificationDoc s vid v) id = lookupClaim s id := by
  unfold setVerificationDoc lookupClaim
  split_ifs <;> rfl

/-- C2 (code-bug exhibit): re-delivering an already-`completed` claim to the
orchestrator is not a no-op.  `process_claim_immediate` never consults the
stored status: it immediately writes status `processing`, overwrites the
verification document, and writes status `completed` — three fresh writes
where the spec requires none. -/
theorem C2_redelivery_writes :
    (lookupClaim completedStore (str "claim-1")).map ClaimDoc.status
      = some (str "completed") ∧
    (process_claim_immediate constEnv (str "claim-1") completedClaim completedStore).2
      = [WriteOp.updateClaim (str "claim-1") (str "processing"),
         WriteOp.setVerification (str "claim-1"),
         WriteOp.updateClaim (str "claim-1") (str "completed")] ∧
    (process_claim_immediate constEnv (str "claim-1") completedClaim completedStore).2
      ≠ [] := by
  refine ⟨by decide, by decide, by decide⟩

/-- C5 counterexample: a synthesizer confidence of -0.5 is recorded
unchanged, so the recorded confidence is not clamped to [0, 1]. -/
theorem C5_counterexample_negative_confidence :
    (verify_claim_validate (some (str "true", some (-(1:ℚ)/2)))).confidence
      = -(1/2) ∧
    (verify_claim_validate (some (str "true", some (-(1:ℚ)/2)))).confidence < 0 := by
  have h : (verify_claim_validate (some (str "true", some (-(1:ℚ)/2)))).confidence
      = -(1/2) := by
    unfold verify_claim_validate
    norm_num
  exact ⟨h, by rw [h]; norm_num⟩

/-- C5 (amended): the recorded verdict is restricted to the closed four-value
set, defaulting to `unverified` for any other synthesizer value; the recorded
confidence is replaced by 0.5 exactly when it is missing, non-numeric, or
greater than 1, and is passed through unchanged otherwise — in particular a
negative confidence is recorded as-is, so the confidence is not clamped to
[0, 1]. -/
theorem C5_verdict_confidence_validation (v : Str) (c : Option ℚ) :
    ((verify_claim_validate (some (v, c))).verdict ∈ verdict_enum) ∧
    (v ∉ verdict_enum →
      (verify_claim_validate (some (v, c))).verdict = str "unverified") ∧
    (v ∈ verdict_enum → (verify_claim_validate (some (v, c))).verdict = v) ∧
    (c = none → (verify_claim_validate (some (v, c))).confidence = 1/2) ∧
    (∀ x : ℚ, c = some x → 1 < x →
      (verify_claim_validate (some (v, c))).confidence = 1/2) ∧
    (∀ x : ℚ, c = some x → x ≤ 1 →
      (verify_claim_validate (some (v, c))).confidence = x) ∧
    (verify_claim_validate none
      = { verdict := str "unverified", confidence := 3/10 }) := by
  refine ⟨?_, fun hv => ?_, fun hv => ?_, fun hc => ?_, fun x hc hx => ?_,
    fun x hc hx => ?_, rfl⟩
  · unfold verify_claim_validate
    by_cases hv : v ∈ verdict_enum
    · simp [hv]
    · simp [hv]
      decide
  · unfold verify_claim_validate
    simp [hv]
  · unfold verify_claim_validate
    simp [hv]
  · unfold verify_claim_validate
    simp [hc]
  · unfold verify_claim_validate
    subst hc
    simp only
    rw [if_pos hx]
  · unfold verify_claim_validate
    subst hc
    simp only
    rw [if_neg (by linarith)]

/-- Witness for C5: an out-of-set verdict with confidence 1.5 is recorded as
`unverified` with confidence 0.5; an in-set verdict with confidence 0.25 is
recorded unchanged; a missing confidence becomes 0.5. -/
theorem C5_verdict_confidence_validation_witness :
    (verify_claim_validate (some (str "probably", some ((3:ℚ)/2)))).verdict
      = str "unverified" ∧
    (verify_claim_validate (some (str "probably", some ((3:ℚ)/2)))).confidence = 1/2 ∧
    (verify_claim_validate (some (str "false", some ((1:ℚ)/4)))).verdict = str "false" ∧
    (verify_claim_validate (some (str "false", some ((1:ℚ)/4)))).confidence = 1/4 ∧
    (verify_claim_validate (some (str "false", (none : Option ℚ)))).confidence = 1/2 :=
  ⟨(C5_verdict_confidence_validation (str "probably") (some (3/2))).2.1 (by decide),
   (C5_verdict_confidence_validation (str "probably") (some (3/2))).2.2.2.2.1
     (3/2) rfl (by norm_num),
   (C5_verdict_confidence_validation (str "false") (some (1/4))).2.2.1 (by decide),
   (C5_verdict_confidence_validation (str "false") (some (1/4))).2.2.2.2.2.1
     (1/4) rfl (by norm_num),
   (C5_verdict_confidence_validation (str "false") none).2.2.2.1 rfl⟩

/-- C8 counterexample: a successful detection call whose response parses to
zero claims returns the empty list, not the full input text as one claim. -/
theorem C8_counterexample_no_fallback :
    detect_claims (some []) (str "The moon is made of cheese") = [] ∧
    detect_claims (some []) (str "The moon is made of cheese")
      ≠ [str "The moon is made of cheese"] := by
  exact ⟨by decide, by decide⟩

/-- C8 (amended): the full-input-text fallback applies exactly when the
detection call raises; a successful call parsing to zero claims propagates
the empty claim list with no fallback; and a zero-claim detection never
aborts the run — the pipeline still completes (status `completed`). -/
theorem C8_zero_claims_behaviour :
    (∀ t : Str, detect_claims none t = [t]) ∧
    (∀ t : Str, detect_claims (some []) t = []) ∧
    (lookupClaim
        (process_claim_immediate zeroDetectEnv (str "claim-3") textClaim textStore).1
        (str "claim-3")).map ClaimDoc.status = some (str "completed") := by
  refine ⟨fun t => rfl, fun t => rfl, by decide⟩

/-- C9: a submission with neither text nor image is rejected at intake and
the pipeline is never invoked; a claim whose only text source is OCR on its
image fails the run when OCR yields empty text, setting status `failed` and
the error message. -/
theorem C9_intake_and_ocr_failure :
    (∀ (text : Option Str) (image_present : Bool),
      pyFalsyText text = true → image_present = false →
      submit_claim text image_present =
        SubmitOutcome.rejected (str "Either text or image must be provided")) ∧
    (∀ (env : PipelineEnv) (id u : Str) (d : ClaimDoc) (s : Store),
      d.text = none → d.image_url = some u → u ≠ [] → env.ocr_text u = [] →
      lookupClaim (process_claim_immediate env id d s).1 id =
        (lookupClaim s id).map (fun d0 =>
          { d0 with status := str "failed",
                    error := some (str "No text found in claim or extracted from image") })) := by
  constructor
  · intro text image_present ht hi
    unfold submit_claim
    rw [ht, hi]
    rfl
  · intro env id u d s ht hi hu hocr
    cases u with
    | nil => exact absurd rfl hu
    | cons a l =>
      unfold process_claim_immediate
      rw [ht, hi]
      simp only [Option.getD_none, Option.getD_some, List.isEmpty_nil,
        Bool.and_true, pyTruthy, List.isEmpty_cons, Bool.not_false,
        Bool.true_and, if_true, hocr]
      rw [lookupClaim_update, lookupClaim_update, Option.map_map]
      rfl

/-- Witness for C9 at a concrete empty submission and a concrete image-only
claim whose OCR result is empty. -/
theorem C9_intake_and_ocr_failure_witness :
    submit_claim none false
      = SubmitOutcome.rejected (str "Either text or image must be provided") ∧
    lookupClaim
        (process_claim_immediate emptyOcrEnv (str "claim-2") imageOnlyClaim
          imageOnlyStore).1 (str "claim-2") =
      (lookupClaim imageOnlyStore (str "claim-2")).map (fun d0 =>
        { d0 with status := str "failed",
                  error := some (str "No text found in claim or extracted from image") }) :=
  ⟨(C9_intake_and_ocr_failure).1 none false rfl rfl,
   (C9_intake_and_ocr_failure).2 emptyOcrEnv (str "claim-2")
     (str "gs://bucket/img.png") imageOnlyClaim imageOnlyStore rfl rfl
     (by decide) rfl⟩

end MisinfoApp
